import Mathlib

/-!
Verification of the realtime WebRTC session-negotiation examples
(`src/examples/openai-basic.py` and `src/examples/rtav-basic.py`).

The two scripts register an `on_message` handler on a WebRTC data channel.
The handler parses inbound JSON control events, tracks three pieces of
mutable session state (`session_id`, `message_sent`, `response_complete`),
and emits outbound control messages (`session.update`,
`conversation.item.create`, `response.create`).  This file embeds that
handler (and the connection-state handlers, the signaling HTTP status
check and the TLS-verification predicate) as executable Lean functions and
proves properties of them.
-/

namespace RealtimeWebRTC

/-- JSON-like values, as produced by Python's `json.loads` and consumed by
`json.dumps` (both from the standard library, external to the repository).
Objects keep their fields as an association list in source order. -/
inductive JVal : Type
  | null : JVal
  | bool : Bool → JVal
  | num : Int → JVal
  | str : String → JVal
  | arr : List JVal → JVal
  | obj : List (String × JVal) → JVal

/-- Python equality of a value against a string literal, as in
`data.get('type') == 'session.created'`: true exactly when the value is
that string (`None == s` and `5 == s` are `False` in Python). -/
def jvalEqStr : Option JVal → String → Bool
  | some (.str s), t => s = t
  | _, _ => false

/-- First-match lookup in a JSON object's field list, modelling Python
`dict.get(key)` (returns `None`, i.e. `none`, when the key is missing). -/
def dlookup : List (String × JVal) → String → Option JVal
  | [], _ => none
  | (k, v) :: fs, key => if k = key then some v else dlookup fs key

/-- Python `dict.get(key, default)`. -/
def dgetD (fs : List (String × JVal)) (key : String) (d : JVal) : JVal :=
  (dlookup fs key).getD d

/-- Whether a value is a Python `dict`, modelling `isinstance(v, dict)`. -/
def JVal.isObj : JVal → Bool
  | .obj _ => true
  | _ => false

mutual

/-- Model of Python `repr` on JSON-like values (strings are quoted, `True`,
`False`, `None` capitalised, lists and dicts printed with `, ` separators).
String-escaping inside `repr` is not modelled; the inputs in this
development contain no quotes or control characters. -/
def pyRepr : JVal → String
  | .null => "None"
  | .bool b => if b then "True" else "False"
  | .num n => toString n
  | .str s => "\x27" ++ s ++ "\x27"
  | .arr xs => "[" ++ String.intercalate ", " (pyReprList xs) ++ "]"
  | .obj fs => "\x7b" ++ String.intercalate ", " (pyReprFields fs) ++ "\x7d"

def pyReprList : List JVal → List String
  | [] => []
  | v :: vs => pyRepr v :: pyReprList vs

def pyReprFields : List (String × JVal) → List String
  | [] => []
  | (k, v) :: fs => ("\x27" ++ k ++ "\x27: " ++ pyRepr v) :: pyReprFields fs

end

/-- Model of Python `str` on JSON-like values: the identity on strings,
`repr` on everything else (as in f-string interpolation). -/
def pyStr : JVal → String
  | .str s => s
  | v => pyRepr v

/-- `str` applied to an optional value (`none` models Python `None`). -/
def pyStrOpt : Option JVal → String
  | none => "None"
  | some v => pyStr v

/-- Python truthiness of a JSON-like value (`if delta:`). -/
def pyTruthy : JVal → Bool
  | .null => false
  | .bool b => b
  | .num n => n ≠ 0
  | .str s => s ≠ ""
  | .arr xs => !xs.isEmpty
  | .obj fs => !fs.isEmpty

/-- The mutable state captured by the `on_message` closure in both scripts:
`session_id = None`, `message_sent = False`, `response_complete = False`
initially (`audio_chunks` is declared but never used).  `session_id` holds
whatever `data.get('session', {}).get('id')` returned (`none` models
Python `None`). -/
structure SessState : Type where
  session_id : Option JVal
  message_sent : Bool
  response_complete : Bool

/-- The state of the closure variables right after their declaration. -/
def initialState : SessState := ⟨none, false, false⟩

/-- A console print from the handler.  `errorSurfaced s` is the
`print(f'... Error: \x7berror_msg\x7d')` line of the `error` branch with
interpolated text `s`; `parseFailure` is the
`except: print(f'... Error parsing message: ...')` catch-all; `info` covers
the remaining progress prints. -/
inductive Diag : Type where
  | info : String → Diag
  | errorSurfaced : String → Diag
  | parseFailure : Diag
  deriving DecidableEq

/-- What a single `on_message` invocation did: the final closure state, the
payloads passed to `data_channel.send` (pre-`json.dumps`, in send order),
and the console prints (the scripts' only diagnostic sink). -/
structure HandlerResult : Type where
  state : SessState
  sent : List JVal
  diags : List Diag

/-- An inbound data-channel message.  `text p` is a `str` message whose
`json.loads` outcome is `p` (`none` when `json.loads` raises, i.e. the
text was not valid JSON); `binary` is any non-`str` message (the handler
returns immediately on those). -/
inductive Msg : Type where
  | text : Option JVal → Msg
  | binary : Msg

/-- The `session.update` payload built in `openai-basic.py` lines 70-78,
parameterised by `OPENAI_MODEL`. -/
def openaiSessionUpdateMsg (model : String) : JVal :=
  .obj [("type", .str "session.update"),
        ("session", .obj
          [("type", .str "realtime"),
           ("instructions",
            .str "You are a helpful assistant. Keep your responses concise."),
           ("audio", .obj [("output", .obj [("voice", .str "alloy")])]),
           ("model", .str model)])]

/-- The `conversation.item.create` payload of `openai-basic.py` lines 90-102. -/
def openaiConversationItemCreateMsg : JVal :=
  .obj [("type", .str "conversation.item.create"),
        ("item", .obj
          [("type", .str "message"),
           ("role", .str "user"),
           ("content", .arr
             [.obj [("type", .str "input_text"),
                    ("text", .str "Hello! Can you say \"Hello, this is OpenAI Realtime API\" in a friendly way?")]])])]

/-- The empty `response.create` trigger payload (both scripts). -/
def responseCreateMsg : JVal :=
  .obj [("type", .str "response.create")]

/-- Python `x or default` on an optional environment string: the default is
used when the variable is unset (`None`) or empty (falsy). -/
def pyOrDefault (o : Option String) (d : String) : String :=
  match o with
  | none => d
  | some v => if v = "" then d else v

/-- The `session.update` payload built in `rtav-basic.py` lines 82-93:
`voice` is `RTAV_VOICE_ID or 'default'` and a `face` field is appended only
when `RTAV_FACE_ID` is set and non-empty (`if RTAV_FACE_ID:`). -/
def rtavSessionUpdateMsg (voice_id face_id : Option String) (model : String) : JVal :=
  .obj [("type", .str "session.update"),
        ("session", .obj
          ([("instructions",
             .str "You are a helpful assistant. Keep your responses concise."),
            ("voice", .str (pyOrDefault voice_id "default")),
            ("model", .str model)] ++
           (match face_id with
            | some f => if f = "" then [] else [("face", .str f)]
            | none => [])))]

/-- The `conversation.item.create` payload of `rtav-basic.py` lines 107-119. -/
def rtavConversationItemCreateMsg : JVal :=
  .obj [("type", .str "conversation.item.create"),
        ("item", .obj
          [("type", .str "message"),
           ("role", .str "user"),
           ("content", .arr
             [.obj [("type", .str "input_text"),
                    ("text", .str "Hello! Can you say \"Hello, this is RTAV Realtime API\" in a friendly way?")]])])]

/-- The error-message selection of `openai-basic.py` line 137 /
`rtav-basic.py` line 158 applied to `error_info = data.get('error', \x7b\x7d)`:
`error_info.get('message', 'Unknown error') if isinstance(error_info, dict)
else str(error_info)`, with the f-string's `str` applied to the result. -/
def errorMsgOf (error_info : JVal) : String :=
  match error_info with
  | .obj efs =>
    match dlookup efs "message" with
    | some m => pyStr m
    | none => "Unknown error"
  | v => pyStr v

/-- `openai-basic.py` lines 81-139: the part of the handler body after the
`session.created` branch, for a message that parsed to a dict with fields
`fs`.  `st` is the closure state after the `session.created` branch and
`out0`/`di0` the sends/prints that branch produced.  None of these lines
can raise, so this part is total. -/
def openaiHandleRest (st : SessState) (fs : List (String × JVal))
    (out0 : List JVal) (di0 : List Diag) : HandlerResult :=
  let typ := dlookup fs "type"
  -- lines 81-109: the session.updated branch with the message_sent latch
  let r1 : SessState × List JVal × List Diag :=
    if jvalEqStr typ "session.updated" then
      if st.message_sent = false then
        ({ st with message_sent := true },
         [openaiConversationItemCreateMsg, responseCreateMsg],
         [Diag.info "Session configured", Diag.info "Sending test message..."])
      else
        (st, [], [Diag.info "Session configured",
                  Diag.info "Session updated again, but message already sent"])
    else (st, [], [])
  -- lines 112-114: debug print of every other event type
  let di2 : List Diag :=
    if jvalEqStr typ "session.created" || jvalEqStr typ "session.updated" then []
    else [Diag.info ("Event: " ++ pyStrOpt typ)]
  -- lines 117-120: text delta chunks
  let di3 : List Diag :=
    if jvalEqStr typ "response.output_text.delta" || jvalEqStr typ "response.text.delta" then
      let delta := dgetD fs "delta" (.str "")
      if pyTruthy delta then [Diag.info (pyStr delta)] else []
    else []
  -- lines 123-124
  let di4 : List Diag :=
    if jvalEqStr typ "response.created" then [Diag.info "Response started"] else []
  -- lines 127-132
  let r5 : SessState × List Diag :=
    if jvalEqStr typ "response.done" then
      ({ r1.1 with response_complete := true }, [Diag.info "Response complete"])
    else (r1.1, [])
  -- lines 135-139
  let r6 : SessState × List Diag :=
    if jvalEqStr typ "error" then
      let error_info := dgetD fs "error" (.obj [])
      let error_msg : String := errorMsgOf error_info
      ({ r5.1 with response_complete := true }, [Diag.errorSurfaced error_msg])
    else (r5.1, [])
  ⟨r6.1, out0 ++ r1.2.1, di0 ++ r1.2.2 ++ di2 ++ di3 ++ di4 ++ r5.2 ++ r6.2⟩

/-- The `on_message` handler of `openai-basic.py` (lines 52-142),
parameterised by `OPENAI_MODEL`.  Non-`str` messages return immediately
(line 60); a `json.loads` failure, a non-dict top-level value (so that
`data.get` raises `AttributeError`), or a non-dict `session` value in the
`session.created` branch (so that `.get('id')` raises) all fall to the
`except` clause at line 141, which prints and leaves the closure state as
it was at the raise point. -/
def openaiOnMessage (model : String) (st : SessState) (m : Msg) : HandlerResult :=
  match m with
  | .binary => ⟨st, [], []⟩
  | .text none => ⟨st, [], [Diag.parseFailure]⟩
  | .text (some data) =>
    match data with
    | .obj fs =>
      let typ := dlookup fs "type"
      -- lines 63-78: the session.created branch
      if jvalEqStr typ "session.created" then
        match dgetD fs "session" (.obj []) with
        | .obj sfs =>
          let sid := dlookup sfs "id"
          openaiHandleRest { st with session_id := sid } fs
            [openaiSessionUpdateMsg model]
            [Diag.info ("Session created: " ++ pyStrOpt sid),
             Diag.info "Configuring session..."]
        | _ => ⟨st, [], [Diag.parseFailure]⟩
      else openaiHandleRest st fs [] []
    | _ => ⟨st, [], [Diag.parseFailure]⟩

/-- `rtav-basic.py` lines 98-160: as `openaiHandleRest`, plus the
video-frame branch of lines 140-141 (which only prints). -/
def rtavHandleRest (st : SessState) (fs : List (String × JVal))
    (out0 : List JVal) (di0 : List Diag) : HandlerResult :=
  let typ := dlookup fs "type"
  -- lines 98-126: the session.updated branch with the message_sent latch
  let r1 : SessState × List JVal × List Diag :=
    if jvalEqStr typ "session.updated" then
      if st.message_sent = false then
        ({ st with message_sent := true },
         [rtavConversationItemCreateMsg, responseCreateMsg],
         [Diag.info "Session configured", Diag.info "Sending test message..."])
      else
        (st, [], [Diag.info "Session configured",
                  Diag.info "Session updated again, but message already sent"])
    else (st, [], [])
  -- lines 129-131: debug print of every other event type
  let di2 : List Diag :=
    if jvalEqStr typ "session.created" || jvalEqStr typ "session.updated" then []
    else [Diag.info ("Event: " ++ pyStrOpt typ)]
  -- lines 134-137: text delta chunks
  let di3 : List Diag :=
    if jvalEqStr typ "response.output_text.delta" || jvalEqStr typ "response.text.delta" then
      let delta := dgetD fs "delta" (.str "")
      if pyTruthy delta then [Diag.info (pyStr delta)] else []
    else []
  -- lines 140-141: video frame chunks (print only)
  let di3b : List Diag :=
    if jvalEqStr typ "response.output_image.delta" || jvalEqStr typ "response.image.delta" then
      [Diag.info "frame"]
    else []
  -- lines 144-145
  let di4 : List Diag :=
    if jvalEqStr typ "response.created" then [Diag.info "Response started"] else []
  -- lines 148-153
  let r5 : SessState × List Diag :=
    if jvalEqStr typ "response.done" then
      ({ r1.1 with response_complete := true }, [Diag.info "Response complete"])
    else (r1.1, [])
  -- lines 156-160
  let r6 : SessState × List Diag :=
    if jvalEqStr typ "error" then
      let error_info := dgetD fs "error" (.obj [])
      let error_msg : String := errorMsgOf error_info
      ({ r5.1 with response_complete := true }, [Diag.errorSurfaced error_msg])
    else (r5.1, [])
  ⟨r6.1, out0 ++ r1.2.1, di0 ++ r1.2.2 ++ di2 ++ di3 ++ di3b ++ di4 ++ r5.2 ++ r6.2⟩

/-- The `on_message` handler of `rtav-basic.py` (lines 64-163),
parameterised by the environment values `RTAV_VOICE_ID`, `RTAV_FACE_ID`
and `RTAV_MODEL`.  Same raise/catch structure as the OpenAI variant. -/
def rtavOnMessage (voice_id face_id : Option String) (model : String)
    (st : SessState) (m : Msg) : HandlerResult :=
  match m with
  | .binary => ⟨st, [], []⟩
  | .text none => ⟨st, [], [Diag.parseFailure]⟩
  | .text (some data) =>
    match data with
    | .obj fs =>
      let typ := dlookup fs "type"
      -- lines 75-95: the session.created branch
      if jvalEqStr typ "session.created" then
        match dgetD fs "session" (.obj []) with
        | .obj sfs =>
          let sid := dlookup sfs "id"
          rtavHandleRest { st with session_id := sid } fs
            [rtavSessionUpdateMsg voice_id face_id model]
            [Diag.info ("Session created: " ++ pyStrOpt sid),
             Diag.info "Configuring session..."]
        | _ => ⟨st, [], [Diag.parseFailure]⟩
      else rtavHandleRest st fs [] []
    | _ => ⟨st, [], [Diag.parseFailure]⟩

/-- Run the OpenAI handler over a sequence of inbound messages in arrival
order (the data channel is created `ordered=True`), starting from `st`;
returns the final state and the concatenated sends and prints. -/
def processOpenai (model : String) : SessState → List Msg →
    SessState × List JVal × List Diag
  | st, [] => (st, [], [])
  | st, m :: ms =>
    let r := openaiOnMessage model st m
    let rest := processOpenai model r.state ms
    (rest.1, r.sent ++ rest.2.1, r.diags ++ rest.2.2)

/-- Run the RTAV handler over a sequence of inbound messages in arrival
order, starting from `st`. -/
def processRtav (voice_id face_id : Option String) (model : String) :
    SessState → List Msg → SessState × List JVal × List Diag
  | st, [] => (st, [], [])
  | st, m :: ms =>
    let r := rtavOnMessage voice_id face_id model st m
    let rest := processRtav voice_id face_id model r.state ms
    (rest.1, r.sent ++ rest.2.1, r.diags ++ rest.2.2)

/-- A well-formed `session.created` event carrying a session id. -/
def sessionCreatedEvent (id : String) : Msg :=
  .text (some (.obj [("type", .str "session.created"),
                     ("session", .obj [("id", .str id)])]))

/-- A `session.updated` confirmation event. -/
def sessionUpdatedEvent : Msg :=
  .text (some (.obj [("type", .str "session.updated")]))

/-- A `response.done` event. -/
def responseDoneEvent : Msg :=
  .text (some (.obj [("type", .str "response.done")]))

/-- An `error` event whose `error` field is a dict with a `message` key. -/
def errorEvent (message : String) : Msg :=
  .text (some (.obj [("type", .str "error"),
                     ("error", .obj [("message", .str message)])]))

/-- An `error` event with an arbitrary `error` field value. -/
def errorEventWith (e : JVal) : Msg :=
  .text (some (.obj [("type", .str "error"), ("error", e)]))

/-- An `error` event with no `error` field at all. -/
def errorEventNoField : Msg :=
  .text (some (.obj [("type", .str "error")]))

/-- Whether an outbound payload is a dict whose `type` field is `t`. -/
def msgTypeIs (v : JVal) (t : String) : Bool :=
  match v with
  | .obj fs => jvalEqStr (dlookup fs "type") t
  | _ => false

/-- How many of the sent payloads carry the outbound type `t`. -/
def countType (outs : List JVal) (t : String) : Nat :=
  (outs.filter (fun v => msgTypeIs v t)).length

/-- The `on_connectionstatechange` handler of `openai-basic.py`
(lines 155-160).  It does not touch any of the closure state variables;
on `failed` or `disconnected` it calls `asyncio.get_event_loop().stop()`,
which the second component records (`true` = the event loop was stopped). -/
def openaiOnConnectionStateChange (st : SessState) (connectionState : String) :
    SessState × Bool :=
  if connectionState = "failed" ∨ connectionState = "disconnected" then
    (st, true)
  else (st, false)

/-- The `on_connectionstatechange` handler of `rtav-basic.py`
(lines 176-182): on `failed` or `disconnected` it sets the
`response_complete` closure flag (`nonlocal response_complete`). -/
def rtavOnConnectionStateChange (st : SessState) (connectionState : String) :
    SessState :=
  if connectionState = "failed" ∨ connectionState = "disconnected" then
    { st with response_complete := true }
  else st

/-- The signaling-response check of `openai-basic.py` (lines 249-261): the
exchange raises `Exception(f'Failed to create call: \x7bstatus\x7d \x7btext\x7d')`
unless the status code is exactly 201, in which case the body text is
accepted as the SDP answer. -/
def openaiCreateCallHttpResult (status_code : Nat) (text : String) :
    Except String String :=
  if status_code ≠ 201 then
    Except.error ("Failed to create call: " ++ toString status_code ++ " " ++ text)
  else Except.ok text

/-- `aiohttp`'s `ClientResponse.ok` (external library semantics): true
exactly when the status code is below 400. -/
def aiohttpResponseOk (status : Nat) : Bool :=
  status < 400

/-- The signaling-response check of `rtav-basic.py` (lines 256-261): the
exchange raises unless `response.ok` (status < 400), in which case the
body text is accepted as the SDP answer. -/
def rtavCreateCallHttpResult (status : Nat) (text : String) :
    Except String String :=
  if aiohttpResponseOk status = false then
    Except.error ("Failed to create call: " ++ toString status ++ " " ++ text)
  else Except.ok text

/-- Python equality of an optional string against a string literal
(`None == s` is `False`). -/
def jstrEq : Option String → String → Bool
  | some h, t => h = t
  | none, _ => false

/-- Python `s.startswith(pre)`, modelled character-by-character. -/
def pyStartsWith (s pre : String) : Bool :=
  pre.data.isPrefixOf s.data

/-- The hostname test of `rtav-basic.py` lines 213-237 (`is_localhost`):
exact match against `localhost`, `127.0.0.1`, `::1`, or a `startswith`
check against the prefixes `192.168.`, `10.`, `172.16.` … `172.31.`.
`hostname` is `urlparse(CALLS_API_URL).hostname` (standard library),
which is `None` when the URL has no host. -/
def rtavIsLocalhost (hostname : Option String) : Bool :=
  jstrEq hostname "localhost" || jstrEq hostname "127.0.0.1" || jstrEq hostname "::1" ||
  (match hostname with
   | none => false
   | some h =>
     pyStartsWith h "192.168." ||
     pyStartsWith h "10." ||
     pyStartsWith h "172.16." ||
     pyStartsWith h "172.17." ||
     pyStartsWith h "172.18." ||
     pyStartsWith h "172.19." ||
     pyStartsWith h "172.20." ||
     pyStartsWith h "172.21." ||
     pyStartsWith h "172.22." ||
     pyStartsWith h "172.23." ||
     pyStartsWith h "172.24." ||
     pyStartsWith h "172.25." ||
     pyStartsWith h "172.26." ||
     pyStartsWith h "172.27." ||
     pyStartsWith h "172.28." ||
     pyStartsWith h "172.29." ||
     pyStartsWith h "172.30." ||
     pyStartsWith h "172.31.")

/-- The TLS-verification decision of `rtav-basic.py` lines 209-246:
`verify_ssl` starts `True` and is set to `False` exactly when the calls
URL starts with `https://` and its hostname passes `rtavIsLocalhost`
(in which case an SSL context with `CERT_NONE` is used). -/
def rtavVerifySSL (calls_api_url : String) (hostname : Option String) : Bool :=
  if pyStartsWith calls_api_url "https://" then
    if rtavIsLocalhost hostname then false else true
  else true

/-! ## Helper lemmas -/

/-- Unfold one step of `processOpenai` on a cons. -/
lemma processOpenai_cons (model : String) (st : SessState) (m : Msg) (ms : List Msg) :
    processOpenai model st (m :: ms) =
      ((processOpenai model (openaiOnMessage model st m).state ms).1,
       (openaiOnMessage model st m).sent ++
         (processOpenai model (openaiOnMessage model st m).state ms).2.1,
       (openaiOnMessage model st m).diags ++
         (processOpenai model (openaiOnMessage model st m).state ms).2.2) := rfl

/-- Unfold one step of `processRtav` on a cons. -/
lemma processRtav_cons (voice face : Option String) (model : String)
    (st : SessState) (m : Msg) (ms : List Msg) :
    processRtav voice face model st (m :: ms) =
      ((processRtav voice face model (rtavOnMessage voice face model st m).state ms).1,
       (rtavOnMessage voice face model st m).sent ++
         (processRtav voice face model (rtavOnMessage voice face model st m).state ms).2.1,
       (rtavOnMessage voice face model st m).diags ++
         (processRtav voice face model (rtavOnMessage voice face model st m).state ms).2.2) := rfl

/-- Once the latch is set, a `session.updated` event changes nothing and
sends nothing (OpenAI handler): only the two confirmation prints happen. -/
lemma openai_updated_already_sent (model : String) (st : SessState)
    (h : st.message_sent = true) :
    openaiOnMessage model st sessionUpdatedEvent =
      ⟨st, [], [Diag.info "Session configured",
                Diag.info "Session updated again, but message already sent"]⟩ := by
  obtain ⟨sid, ms, rc⟩ := st
  cases ms
  · exact absurd h (by simp)
  · rfl

/-- Once the latch is set, a `session.updated` event changes nothing and
sends nothing (RTAV handler). -/
lemma rtav_updated_already_sent (voice face : Option String) (model : String)
    (st : SessState) (h : st.message_sent = true) :
    rtavOnMessage voice face model st sessionUpdatedEvent =
      ⟨st, [], [Diag.info "Session configured",
                Diag.info "Session updated again, but message already sent"]⟩ := by
  obtain ⟨sid, ms, rc⟩ := st
  cases ms
  · exact absurd h (by simp)
  · rfl

/-- With the latch set, any number of further `session.updated` events sends
nothing and leaves the state unchanged (OpenAI handler). -/
lemma openai_replicate_updated (model : String) (k : Nat) (st : SessState)
    (h : st.message_sent = true) :
    (processOpenai model st (List.replicate k sessionUpdatedEvent)).2.1 = [] ∧
    (processOpenai model st (List.replicate k sessionUpdatedEvent)).1 = st := by
  induction k with
  | zero => exact ⟨rfl, rfl⟩
  | succ n ih =>
    rw [List.replicate_succ, processOpenai_cons, openai_updated_already_sent model st h]
    simpa using ih

/-- With the latch set, any number of further `session.updated` events sends
nothing and leaves the state unchanged (RTAV handler). -/
lemma rtav_replicate_updated (voice face : Option String) (model : String)
    (k : Nat) (st : SessState) (h : st.message_sent = true) :
    (processRtav voice face model st (List.replicate k sessionUpdatedEvent)).2.1 = [] ∧
    (processRtav voice face model st (List.replicate k sessionUpdatedEvent)).1 = st := by
  induction k with
  | zero => exact ⟨rfl, rfl⟩
  | succ n ih =>
    rw [List.replicate_succ, processRtav_cons,
      rtav_updated_already_sent voice face model st h]
    simpa using ih

/-- The complete send list for `session.created` followed by `1 + n`
`session.updated` events (OpenAI handler): one configure message, then the
single content + trigger pair. -/
lemma openai_seq_outs (model id : String) (n : Nat) :
    (processOpenai model initialState
      (sessionCreatedEvent id :: sessionUpdatedEvent ::
        List.replicate n sessionUpdatedEvent)).2.1 =
      [openaiSessionUpdateMsg model, openaiConversationItemCreateMsg,
       responseCreateMsg] := by
  have h := openai_replicate_updated model n ⟨some (.str id), true, false⟩ rfl
  show openaiSessionUpdateMsg model :: openaiConversationItemCreateMsg ::
      responseCreateMsg ::
      (processOpenai model ⟨some (.str id), true, false⟩
        (List.replicate n sessionUpdatedEvent)).2.1 = _
  rw [h.1]

/-- The complete send list for `session.created` followed by `1 + n`
`session.updated` events (RTAV handler). -/
lemma rtav_seq_outs (voice face : Option String) (model id : String) (n : Nat) :
    (processRtav voice face model initialState
      (sessionCreatedEvent id :: sessionUpdatedEvent ::
        List.replicate n sessionUpdatedEvent)).2.1 =
      [rtavSessionUpdateMsg voice face model, rtavConversationItemCreateMsg,
       responseCreateMsg] := by
  have h := rtav_replicate_updated voice face model n ⟨some (.str id), true, false⟩ rfl
  show rtavSessionUpdateMsg voice face model :: rtavConversationItemCreateMsg ::
      responseCreateMsg ::
      (processRtav voice face model ⟨some (.str id), true, false⟩
        (List.replicate n sessionUpdatedEvent)).2.1 = _
  rw [h.1]

/-! ## Claim theorems -/

/-- Claim C1: for an inbound sequence of one `session.created` event followed
by `N ≥ 1` `session.updated` events, each handler emits exactly one
`conversation.item.create` and exactly one `response.create` message,
regardless of `N`: the `message_sent` latch set by the first
`session.updated` suppresses every later one. -/
theorem c1_single_submission (omodel rmodel id : String)
    (voice face : Option String) (N : Nat) (hN : 1 ≤ N) :
    countType (processOpenai omodel initialState
      (sessionCreatedEvent id :: List.replicate N sessionUpdatedEvent)).2.1
      "conversation.item.create" = 1 ∧
    countType (processOpenai omodel initialState
      (sessionCreatedEvent id :: List.replicate N sessionUpdatedEvent)).2.1
      "response.create" = 1 ∧
    countType (processRtav voice face rmodel initialState
      (sessionCreatedEvent id :: List.replicate N sessionUpdatedEvent)).2.1
      "conversation.item.create" = 1 ∧
    countType (processRtav voice face rmodel initialState
      (sessionCreatedEvent id :: List.replicate N sessionUpdatedEvent)).2.1
      "response.create" = 1 := by
  cases N with
  | zero => exact absurd hN (by omega)
  | succ n =>
    rw [List.replicate_succ, openai_seq_outs omodel id n,
      rtav_seq_outs voice face rmodel id n]
    exact ⟨rfl, rfl, rfl, rfl⟩

/-- Witness for C1 at `N = 2`. -/
theorem c1_single_submission_witness :
    1 ≤ 2 ∧
    (countType (processOpenai "gpt-realtime" initialState
      (sessionCreatedEvent "s1" :: List.replicate 2 sessionUpdatedEvent)).2.1
      "conversation.item.create" = 1 ∧
    countType (processOpenai "gpt-realtime" initialState
      (sessionCreatedEvent "s1" :: List.replicate 2 sessionUpdatedEvent)).2.1
      "response.create" = 1 ∧
    countType (processRtav none none "gpt-5.2" initialState
      (sessionCreatedEvent "s1" :: List.replicate 2 sessionUpdatedEvent)).2.1
      "conversation.item.create" = 1 ∧
    countType (processRtav none none "gpt-5.2" initialState
      (sessionCreatedEvent "s1" :: List.replicate 2 sessionUpdatedEvent)).2.1
      "response.create" = 1) :=
  ⟨by omega, c1_single_submission "gpt-realtime" "gpt-5.2" "s1" none none 2 (by omega)⟩

/-- Counterexample to claim C2: neither handler latches the configure
message.  Processing two `session.created` events in one session emits
`session.update` twice. -/
theorem c2_counterexample :
    countType (processOpenai "gpt-realtime" initialState
      [sessionCreatedEvent "s1", sessionCreatedEvent "s1"]).2.1
      "session.update" = 2 ∧
    countType (processRtav none none "gpt-5.2" initialState
      [sessionCreatedEvent "s1", sessionCreatedEvent "s1"]).2.1
      "session.update" = 2 :=
  ⟨rfl, rfl⟩

/-- Claim C2 as amended: each `session.created` event emits exactly one
`session.update` carrying the full configuration — the send is gated only
on the event itself, from any handler state, so one `session.created`
yields one configure message but a repeated `session.created` yields
another. -/
theorem c2_amended (omodel rmodel id : String) (voice face : Option String)
    (st : SessState) :
    (openaiOnMessage omodel st (sessionCreatedEvent id)).sent =
      [openaiSessionUpdateMsg omodel] ∧
    (rtavOnMessage voice face rmodel st (sessionCreatedEvent id)).sent =
      [rtavSessionUpdateMsg voice face rmodel] :=
  ⟨rfl, rfl⟩

/-- Counterexample to claim C3: a `session.updated` event processed before
any `session.created` (fresh state, no session id) is not a no-op — both
handlers emit the `conversation.item.create` / `response.create` pair. -/
theorem c3_counterexample :
    (processOpenai "gpt-realtime" initialState [sessionUpdatedEvent]).2.1 =
      [openaiConversationItemCreateMsg, responseCreateMsg] ∧
    (processOpenai "gpt-realtime" initialState [sessionUpdatedEvent]).1.session_id =
      none ∧
    (processRtav none none "gpt-5.2" initialState [sessionUpdatedEvent]).2.1 =
      [rtavConversationItemCreateMsg, responseCreateMsg] ∧
    (processRtav none none "gpt-5.2" initialState [sessionUpdatedEvent]).1.session_id =
      none :=
  ⟨rfl, rfl, rfl, rfl⟩

/-- Claim C3 as amended: content submission is gated only on the
`message_sent` latch, not on session existence — a `session.updated` event
processed while the latch is unset emits the content pair even when no
`session.created` has been seen (the scripts rely on the channel's ordered
delivery to rule this out). -/
theorem c3_amended (omodel rmodel : String) (voice face : Option String)
    (st : SessState) (h : st.message_sent = false) :
    (openaiOnMessage omodel st sessionUpdatedEvent).sent =
      [openaiConversationItemCreateMsg, responseCreateMsg] ∧
    (openaiOnMessage omodel st sessionUpdatedEvent).state.session_id =
      st.session_id ∧
    (rtavOnMessage voice face rmodel st sessionUpdatedEvent).sent =
      [rtavConversationItemCreateMsg, responseCreateMsg] ∧
    (rtavOnMessage voice face rmodel st sessionUpdatedEvent).state.session_id =
      st.session_id := by
  obtain ⟨sid, ms, rc⟩ := st
  cases ms
  · exact ⟨rfl, rfl, rfl, rfl⟩
  · exact absurd h (by simp)

/-- Witness for the amended C3 at the initial state. -/
theorem c3_amended_witness :
    initialState.message_sent = false ∧
    ((openaiOnMessage "gpt-realtime" initialState sessionUpdatedEvent).sent =
      [openaiConversationItemCreateMsg, responseCreateMsg] ∧
    (openaiOnMessage "gpt-realtime" initialState sessionUpdatedEvent).state.session_id =
      initialState.session_id ∧
    (rtavOnMessage none none "gpt-5.2" initialState sessionUpdatedEvent).sent =
      [rtavConversationItemCreateMsg, responseCreateMsg] ∧
    (rtavOnMessage none none "gpt-5.2" initialState sessionUpdatedEvent).state.session_id =
      initialState.session_id) :=
  ⟨rfl, c3_amended "gpt-realtime" "gpt-5.2" none none initialState rfl⟩

/-- No branch of the shared handler tail ever clears `response_complete`
(OpenAI handler). -/
lemma openaiHandleRest_rc_mono (st : SessState) (fs : List (String × JVal))
    (out0 : List JVal) (di0 : List Diag) (h : st.response_complete = true) :
    (openaiHandleRest st fs out0 di0).state.response_complete = true := by
  dsimp only [openaiHandleRest]
  split <;> split <;> (try split) <;> (try split) <;> simp_all

/-- No branch of the shared handler tail ever clears `response_complete`
(RTAV handler). -/
lemma rtavHandleRest_rc_mono (st : SessState) (fs : List (String × JVal))
    (out0 : List JVal) (di0 : List Diag) (h : st.response_complete = true) :
    (rtavHandleRest st fs out0 di0).state.response_complete = true := by
  dsimp only [rtavHandleRest]
  split <;> split <;> (try split) <;> (try split) <;> simp_all

/-- A single OpenAI `on_message` invocation never clears `response_complete`. -/
lemma openaiOnMessage_rc_mono (model : String) (st : SessState) (m : Msg)
    (h : st.response_complete = true) :
    (openaiOnMessage model st m).state.response_complete = true := by
  match m with
  | .binary => exact h
  | .text none => exact h
  | .text (some data) =>
    match data with
    | .null | .bool _ | .num _ | .str _ | .arr _ => exact h
    | .obj fs =>
      dsimp only [openaiOnMessage]
      split
      · split
        · exact openaiHandleRest_rc_mono _ _ _ _ h
        · exact h
      · exact openaiHandleRest_rc_mono _ _ _ _ h

/-- A single RTAV `on_message` invocation never clears `response_complete`. -/
lemma rtavOnMessage_rc_mono (voice face : Option String) (model : String)
    (st : SessState) (m : Msg) (h : st.response_complete = true) :
    (rtavOnMessage voice face model st m).state.response_complete = true := by
  match m with
  | .binary => exact h
  | .text none => exact h
  | .text (some data) =>
    match data with
    | .null | .bool _ | .num _ | .str _ | .arr _ => exact h
    | .obj fs =>
      dsimp only [rtavOnMessage]
      split
      · split
        · exact rtavHandleRest_rc_mono _ _ _ _ h
        · exact h
      · exact rtavHandleRest_rc_mono _ _ _ _ h

/-- Claim C4 as amended: the completion flag is one-way — once
`response_complete` is set, no later inbound event (and no
connection-state change) ever resets it, in either handler; but the
handlers do not otherwise freeze: later events may still mutate
`session_id`/`message_sent` and emit messages (see the counterexample). -/
theorem c4_amended (omodel rmodel cs : String) (voice face : Option String)
    (st : SessState) (msgs : List Msg) (h : st.response_complete = true) :
    (processOpenai omodel st msgs).1.response_complete = true ∧
    (processRtav voice face rmodel st msgs).1.response_complete = true ∧
    (openaiOnConnectionStateChange st cs).1.response_complete = true ∧
    (rtavOnConnectionStateChange st cs).response_complete = true := by
  refine ⟨?_, ?_, ?_, ?_⟩
  · induction msgs generalizing st with
    | nil => exact h
    | cons m ms ih =>
      rw [processOpenai_cons]
      exact ih _ (openaiOnMessage_rc_mono omodel st m h)
  · induction msgs generalizing st with
    | nil => exact h
    | cons m ms ih =>
      rw [processRtav_cons]
      exact ih _ (rtavOnMessage_rc_mono voice face rmodel st m h)
  · dsimp only [openaiOnConnectionStateChange]
    split <;> exact h
  · dsimp only [rtavOnConnectionStateChange]
    split <;> simp_all

/-- Witness for the amended C4: a completed state stays completed across a
further `session.created` and `session.updated`. -/
theorem c4_amended_witness :
    (⟨none, false, true⟩ : SessState).response_complete = true ∧
    ((processOpenai "gpt-realtime" ⟨none, false, true⟩
        [sessionCreatedEvent "s1", sessionUpdatedEvent]).1.response_complete = true ∧
     (processRtav none none "gpt-5.2" ⟨none, false, true⟩
        [sessionCreatedEvent "s1", sessionUpdatedEvent]).1.response_complete = true ∧
     (openaiOnConnectionStateChange ⟨none, false, true⟩ "connected").1.response_complete = true ∧
     (rtavOnConnectionStateChange ⟨none, false, true⟩ "connected").response_complete = true) :=
  ⟨rfl, c4_amended "gpt-realtime" "gpt-5.2" "connected" none none
    ⟨none, false, true⟩ [sessionCreatedEvent "s1", sessionUpdatedEvent] rfl⟩

/-- Counterexample to claim C4: after an `error` event sets the completion
flag, a following `session.created` still mutates the session state and
still emits a `session.update` — the flag is never consulted by the
handler.  (The same holds for the RTAV handler.) -/
theorem c4_counterexample :
    (processOpenai "gpt-realtime" initialState [errorEvent "boom"]).1.response_complete
      = true ∧
    (openaiOnMessage "gpt-realtime"
      (processOpenai "gpt-realtime" initialState [errorEvent "boom"]).1
      (sessionCreatedEvent "s1")).sent = [openaiSessionUpdateMsg "gpt-realtime"] ∧
    (processOpenai "gpt-realtime" initialState [errorEvent "boom"]).1.session_id
      = none ∧
    (openaiOnMessage "gpt-realtime"
      (processOpenai "gpt-realtime" initialState [errorEvent "boom"]).1
      (sessionCreatedEvent "s1")).state.session_id = some (.str "s1") :=
  ⟨rfl, rfl, rfl, rfl⟩

/-- Counterexample to claim C5: in `openai-basic.py` the
`on_connectionstatechange` handler does not set `response_complete` on a
`failed` connection state — it leaves all session state untouched and
instead stops the asyncio event loop (second component `true`). -/
theorem c5_counterexample :
    (openaiOnConnectionStateChange initialState "failed").1.response_complete = false ∧
    (openaiOnConnectionStateChange initialState "failed").2 = true :=
  ⟨rfl, rfl⟩

/-- Claim C5 as amended: on a `failed` or `disconnected` connection state,
in any session state, `rtav-basic.py` treats it as implicit completion by
setting `response_complete`; `openai-basic.py` instead leaves the session
state unchanged and stops the event loop.  Any other connection state
changes nothing in either script. -/
theorem c5_amended (st : SessState) (cs : String)
    (h : cs = "failed" ∨ cs = "disconnected") :
    (rtavOnConnectionStateChange st cs).response_complete = true ∧
    (rtavOnConnectionStateChange st cs).session_id = st.session_id ∧
    (rtavOnConnectionStateChange st cs).message_sent = st.message_sent ∧
    (openaiOnConnectionStateChange st cs).1 = st ∧
    (openaiOnConnectionStateChange st cs).2 = true := by
  rcases h with rfl | rfl <;> exact ⟨rfl, rfl, rfl, rfl, rfl⟩

/-- Witness for the amended C5 at `disconnected` from the initial state. -/
theorem c5_amended_witness :
    ("disconnected" = "failed" ∨ "disconnected" = "disconnected") ∧
    ((rtavOnConnectionStateChange initialState "disconnected").response_complete = true ∧
     (rtavOnConnectionStateChange initialState "disconnected").session_id =
       initialState.session_id ∧
     (rtavOnConnectionStateChange initialState "disconnected").message_sent =
       initialState.message_sent ∧
     (openaiOnConnectionStateChange initialState "disconnected").1 = initialState ∧
     (openaiOnConnectionStateChange initialState "disconnected").2 = true) :=
  ⟨Or.inr rfl, c5_amended initialState "disconnected" (Or.inr rfl)⟩

/-- Counterexample to claim C6: neither script tests "status is 2xx".
`openai-basic.py` rejects the 2xx status 200 (it demands exactly 201), and
`rtav-basic.py` accepts the non-2xx status 302 (`response.ok` is
`status < 400`). -/
theorem c6_counterexample :
    openaiCreateCallHttpResult 200 "body" =
      Except.error "Failed to create call: 200 body" ∧
    rtavCreateCallHttpResult 302 "moved" = Except.ok "moved" :=
  ⟨rfl, rfl⟩

/-- Claim C6 as amended: the OpenAI script's signaling exchange succeeds
exactly when the status is 201 and the RTAV script's exactly when the
status is below 400; in every failure case the raised error message
carries the status code and the response body text. -/
theorem c6_amended (status : Nat) (body : String) :
    (openaiCreateCallHttpResult status body = Except.ok body ↔ status = 201) ∧
    (rtavCreateCallHttpResult status body = Except.ok body ↔ status < 400) ∧
    (openaiCreateCallHttpResult status body = Except.error
      ("Failed to create call: " ++ toString status ++ " " ++ body) ↔ status ≠ 201) ∧
    (rtavCreateCallHttpResult status body = Except.error
      ("Failed to create call: " ++ toString status ++ " " ++ body) ↔ ¬ status < 400) := by
  refine ⟨?_, ?_, ?_, ?_⟩ <;>
    · dsimp only [openaiCreateCallHttpResult, rtavCreateCallHttpResult, aiohttpResponseOk]
      split <;> simp_all

/-- Claim C8 (Scenario B): on the inbound sequence
`[session.created{id:"s1"}, error{message:"quota exceeded"}]` both handlers
end with the completion flag set, surface exactly the error message
`"quota exceeded"`, and never send a `conversation.item.create` or a
`response.create` message. -/
theorem c8_error_scenario :
    (processOpenai "gpt-realtime" initialState
      [sessionCreatedEvent "s1", errorEvent "quota exceeded"]).1.response_complete
      = true ∧
    Diag.errorSurfaced "quota exceeded" ∈
      (processOpenai "gpt-realtime" initialState
        [sessionCreatedEvent "s1", errorEvent "quota exceeded"]).2.2 ∧
    countType (processOpenai "gpt-realtime" initialState
      [sessionCreatedEvent "s1", errorEvent "quota exceeded"]).2.1
      "conversation.item.create" = 0 ∧
    countType (processOpenai "gpt-realtime" initialState
      [sessionCreatedEvent "s1", errorEvent "quota exceeded"]).2.1
      "response.create" = 0 ∧
    (processRtav none none "gpt-5.2" initialState
      [sessionCreatedEvent "s1", errorEvent "quota exceeded"]).1.response_complete
      = true ∧
    Diag.errorSurfaced "quota exceeded" ∈
      (processRtav none none "gpt-5.2" initialState
        [sessionCreatedEvent "s1", errorEvent "quota exceeded"]).2.2 ∧
    countType (processRtav none none "gpt-5.2" initialState
      [sessionCreatedEvent "s1", errorEvent "quota exceeded"]).2.1
      "conversation.item.create" = 0 ∧
    countType (processRtav none none "gpt-5.2" initialState
      [sessionCreatedEvent "s1", errorEvent "quota exceeded"]).2.1
      "response.create" = 0 := by
  refine ⟨rfl, ?_, rfl, rfl, rfl, ?_, rfl, rfl⟩ <;> decide

/-- Split a character list on `.` separators (helper for dotted-quad
parsing). -/
def splitDotsAux : List Char → List Char → List (List Char)
  | [], acc => [acc.reverse]
  | c :: rest, acc =>
    if c = '.' then acc.reverse :: splitDotsAux rest []
    else splitDotsAux rest (c :: acc)

/-- Parse a nonempty all-digit character list as a decimal number. -/
def parseDecimal (cs : List Char) : Option Nat :=
  if cs = [] then none
  else if cs.all (fun c => c.isDigit) then
    some (cs.foldl (fun n c => 10 * n + (c.toNat - 48)) 0)
  else none

/-- Modelled from the spec: a hostname that is an "explicit loopback or
private-network target" — `localhost`, the IPv6 loopback `::1`, or a
dotted-quad IPv4 address in 127.0.0.0/8, 10.0.0.0/8, 172.16.0.0/12 or
192.168.0.0/16.  This predicate is what claim C7 quantifies over; the
repository itself contains no such parser (its `is_localhost` uses string
prefixes instead, see `rtavIsLocalhost`). -/
def isLoopbackOrPrivateHost (h : String) : Bool :=
  h == "localhost" || h == "::1" ||
  (match (splitDotsAux h.data []).mapM parseDecimal with
   | some [a, b, c, d] =>
     decide (a ≤ 255) && decide (b ≤ 255) && decide (c ≤ 255) && decide (d ≤ 255) &&
     (decide (a = 127) || decide (a = 10) ||
      (decide (a = 172) && decide (16 ≤ b) && decide (b ≤ 31)) ||
      (decide (a = 192) && decide (b = 168)))
   | _ => false)

/-- The three literal hostnames of `rtav-basic.py` lines 214-216. -/
def localHostnameTable : List String :=
  ["localhost", "127.0.0.1", "::1"]

/-- The eighteen hostname prefixes of `rtav-basic.py` lines 218-235. -/
def privatePrefixTable : List String :=
  ["192.168.", "10.", "172.16.", "172.17.", "172.18.", "172.19.", "172.20.",
   "172.21.", "172.22.", "172.23.", "172.24.", "172.25.", "172.26.", "172.27.",
   "172.28.", "172.29.", "172.30.", "172.31."]

set_option maxHeartbeats 1000000 in
/-- Counterexample to claim C7: the public DNS name `10.example.com` is not
a loopback or private-network address, yet because `is_localhost` uses
`hostname.startswith("10.")` the script disables TLS certificate
verification for it.  (The decision is also computed inside `create_call`
from the URL, not supplied by the caller.) -/
theorem c7_counterexample :
    isLoopbackOrPrivateHost "10.example.com" = false ∧
    rtavVerifySSL "https://10.example.com/v1/realtime/calls"
      (some "10.example.com") = false := by
  constructor <;> decide

set_option maxHeartbeats 1600000 in
/-- Claim C7 as amended: `rtav-basic.py` disables TLS verification exactly
when the calls URL starts with `https://` and the hostname either equals
one of `localhost`/`127.0.0.1`/`::1` or merely starts with one of the
eighteen private-range string prefixes — a hardcoded in-client test that
also fires on public DNS names such as `10.example.com`, rather than a
caller-supplied trust predicate; with no hostname, verification stays on. -/
theorem c7_amended (url h : String) :
    (rtavVerifySSL url (some h) = false ↔
      (pyStartsWith url "https://" = true ∧
        (h ∈ localHostnameTable ∨
         ∃ p ∈ privatePrefixTable, pyStartsWith h p = true))) ∧
    rtavVerifySSL url none = true := by
  have key : rtavIsLocalhost (some h) = true ↔
      (h ∈ localHostnameTable ∨
       ∃ p ∈ privatePrefixTable, pyStartsWith h p = true) := by
    simp only [rtavIsLocalhost, jstrEq, localHostnameTable, privatePrefixTable,
      Bool.or_eq_true, decide_eq_true_eq, List.mem_cons, List.not_mem_nil,
      exists_eq_or_imp, List.mem_singleton]
    tauto
  have base : rtavVerifySSL url (some h) = false ↔
      (pyStartsWith url "https://" = true ∧ rtavIsLocalhost (some h) = true) := by
    unfold rtavVerifySSL
    cases hu : pyStartsWith url "https://" <;>
      cases hl : rtavIsLocalhost (some h) <;> simp [hu, hl]
  refine ⟨base.trans (and_congr_right fun _ => key), ?_⟩
  unfold rtavVerifySSL
  split <;> rfl

/-- Any `error` event, whatever the shape of its `error` field, only sets
the completion flag and prints; nothing is sent (OpenAI handler). -/
lemma openai_error_event_eq (model : String) (st : SessState) (e : JVal) :
    openaiOnMessage model st (errorEventWith e) =
      ⟨{ st with response_complete := true }, [],
       [Diag.info "Event: error", Diag.errorSurfaced (errorMsgOf e)]⟩ := rfl

/-- Any `error` event, whatever the shape of its `error` field, only sets
the completion flag and prints; nothing is sent (RTAV handler). -/
lemma rtav_error_event_eq (voice face : Option String) (model : String)
    (st : SessState) (e : JVal) :
    rtavOnMessage voice face model st (errorEventWith e) =
      ⟨{ st with response_complete := true }, [],
       [Diag.info "Event: error", Diag.errorSurfaced (errorMsgOf e)]⟩ := rfl

/-- Claim C9: an inbound text message that is not valid JSON — or whose
handling raises midway (a non-dict top level, or a non-dict `session`
value inside a `session.created` event) — does not escape the handler and
leaves `session_id`, `message_sent` and `response_complete` untouched: the
failure is only printed and the message dropped.  A non-`str` (binary)
message is likewise dropped without any state change (and without a
print).  Both handlers. -/
theorem c9_malformed_tolerance (omodel rmodel : String)
    (voice face : Option String) (st : SessState) :
    openaiOnMessage omodel st (Msg.text none) = ⟨st, [], [Diag.parseFailure]⟩ ∧
    rtavOnMessage voice face rmodel st (Msg.text none) =
      ⟨st, [], [Diag.parseFailure]⟩ ∧
    openaiOnMessage omodel st Msg.binary = ⟨st, [], []⟩ ∧
    rtavOnMessage voice face rmodel st Msg.binary = ⟨st, [], []⟩ ∧
    (∀ v : JVal, v.isObj = false →
      openaiOnMessage omodel st (Msg.text (some v)) =
        ⟨st, [], [Diag.parseFailure]⟩) ∧
    (∀ v : JVal, v.isObj = false →
      rtavOnMessage voice face rmodel st (Msg.text (some v)) =
        ⟨st, [], [Diag.parseFailure]⟩) ∧
    (∀ v : JVal, v.isObj = false →
      openaiOnMessage omodel st (Msg.text (some (.obj
        [("type", .str "session.created"), ("session", v)]))) =
        ⟨st, [], [Diag.parseFailure]⟩) ∧
    (∀ v : JVal, v.isObj = false →
      rtavOnMessage voice face rmodel st (Msg.text (some (.obj
        [("type", .str "session.created"), ("session", v)]))) =
        ⟨st, [], [Diag.parseFailure]⟩) := by
  refine ⟨rfl, rfl, rfl, rfl, ?_, ?_, ?_, ?_⟩ <;>
    · intro v hv
      cases v <;> first | rfl | simp [JVal.isObj] at hv

/-- Witness for C9: a non-JSON text, a bare JSON number `42`, and a
`session.created` with a string `session` field are all dropped without a
state change. -/
theorem c9_malformed_tolerance_witness :
    JVal.isObj (.num 42) = false ∧
    openaiOnMessage "gpt-realtime" initialState (Msg.text none) =
      ⟨initialState, [], [Diag.parseFailure]⟩ ∧
    openaiOnMessage "gpt-realtime" initialState (Msg.text (some (.num 42))) =
      ⟨initialState, [], [Diag.parseFailure]⟩ ∧
    rtavOnMessage none none "gpt-5.2" initialState (Msg.text (some (.obj
      [("type", .str "session.created"), ("session", .str "oops")]))) =
      ⟨initialState, [], [Diag.parseFailure]⟩ :=
  ⟨rfl,
   (c9_malformed_tolerance "gpt-realtime" "gpt-5.2" none none initialState).1,
   (c9_malformed_tolerance "gpt-realtime" "gpt-5.2" none none
     initialState).2.2.2.2.1 (.num 42) rfl,
   (c9_malformed_tolerance "gpt-realtime" "gpt-5.2" none none
     initialState).2.2.2.2.2.2.2 (.str "oops") rfl⟩

/-- Counterexample to claim C10: when the `error` field is absent,
`data.get('error', \x7b\x7d)` defaults to an empty dict, so the surfaced
message is the fallback `"Unknown error"`, not a stringification of the
missing field's value (e.g. Python's `str(None)` would be `"None"`). -/
theorem c10_counterexample :
    (openaiOnMessage "gpt-realtime" initialState errorEventNoField).diags =
      [Diag.info "Event: error", Diag.errorSurfaced "Unknown error"] ∧
    (rtavOnMessage none none "gpt-5.2" initialState errorEventNoField).diags =
      [Diag.info "Event: error", Diag.errorSurfaced "Unknown error"] ∧
    pyStrOpt none ≠ "Unknown error" := by
  refine ⟨rfl, rfl, ?_⟩
  decide

/-- Claim C10 as amended: every `error` event sets the completion flag and
surfaces a message without raising, in both handlers; the message is the
`message` value when the `error` field is a mapping containing one, the
fallback `"Unknown error"` when the field is a mapping without one **or is
absent** (the lookup default is an empty mapping), and `str` of the value
when the field is present but not a mapping. -/
theorem c10_amended (omodel rmodel : String) (voice face : Option String)
    (st : SessState) (efs : List (String × JVal)) (m v : JVal) :
    (dlookup efs "message" = some m →
      openaiOnMessage omodel st (errorEventWith (.obj efs)) =
        ⟨{ st with response_complete := true }, [],
         [Diag.info "Event: error", Diag.errorSurfaced (pyStr m)]⟩ ∧
      rtavOnMessage voice face rmodel st (errorEventWith (.obj efs)) =
        ⟨{ st with response_complete := true }, [],
         [Diag.info "Event: error", Diag.errorSurfaced (pyStr m)]⟩) ∧
    (dlookup efs "message" = none →
      openaiOnMessage omodel st (errorEventWith (.obj efs)) =
        ⟨{ st with response_complete := true }, [],
         [Diag.info "Event: error", Diag.errorSurfaced "Unknown error"]⟩ ∧
      rtavOnMessage voice face rmodel st (errorEventWith (.obj efs)) =
        ⟨{ st with response_complete := true }, [],
         [Diag.info "Event: error", Diag.errorSurfaced "Unknown error"]⟩) ∧
    (openaiOnMessage omodel st errorEventNoField =
      ⟨{ st with response_complete := true }, [],
       [Diag.info "Event: error", Diag.errorSurfaced "Unknown error"]⟩ ∧
     rtavOnMessage voice face rmodel st errorEventNoField =
      ⟨{ st with response_complete := true }, [],
       [Diag.info "Event: error", Diag.errorSurfaced "Unknown error"]⟩) ∧
    (v.isObj = false →
      openaiOnMessage omodel st (errorEventWith v) =
        ⟨{ st with response_complete := true }, [],
         [Diag.info "Event: error", Diag.errorSurfaced (pyStr v)]⟩ ∧
      rtavOnMessage voice face rmodel st (errorEventWith v) =
        ⟨{ st with response_complete := true }, [],
         [Diag.info "Event: error", Diag.errorSurfaced (pyStr v)]⟩) := by
  refine ⟨?_, ?_, ⟨rfl, rfl⟩, ?_⟩
  · intro h
    rw [openai_error_event_eq, rtav_error_event_eq]
    simp only [errorMsgOf, h]
    exact ⟨trivial, trivial⟩
  · intro h
    rw [openai_error_event_eq, rtav_error_event_eq]
    simp only [errorMsgOf, h]
    exact ⟨trivial, trivial⟩
  · intro hv
    rw [openai_error_event_eq, rtav_error_event_eq]
    cases v <;> first | exact ⟨rfl, rfl⟩ | simp [JVal.isObj] at hv

/-- Witness for the amended C10 on a populated mapping, an empty mapping
and a plain-string `error` field. -/
theorem c10_amended_witness :
    dlookup [("message", JVal.str "quota exceeded")] "message" =
      some (.str "quota exceeded") ∧
    openaiOnMessage "gpt-realtime" initialState
      (errorEventWith (.obj [("message", .str "quota exceeded")])) =
      ⟨{ initialState with response_complete := true }, [],
       [Diag.info "Event: error", Diag.errorSurfaced "quota exceeded"]⟩ ∧
    rtavOnMessage none none "gpt-5.2" initialState (errorEventWith (.obj [])) =
      ⟨{ initialState with response_complete := true }, [],
       [Diag.info "Event: error", Diag.errorSurfaced "Unknown error"]⟩ ∧
    openaiOnMessage "gpt-realtime" initialState (errorEventWith (.str "boom")) =
      ⟨{ initialState with response_complete := true }, [],
       [Diag.info "Event: error", Diag.errorSurfaced "boom"]⟩ :=
  ⟨rfl,
   ((c10_amended "gpt-realtime" "gpt-5.2" none none initialState
      [("message", .str "quota exceeded")] (.str "quota exceeded")
      (.str "boom")).1 rfl).1,
   ((c10_amended "gpt-realtime" "gpt-5.2" none none initialState []
      (.str "quota exceeded") (.str "boom")).2.1 rfl).2,
   ((c10_amended "gpt-realtime" "gpt-5.2" none none initialState []
      (.str "quota exceeded") (.str "boom")).2.2.2 rfl).1⟩

end RealtimeWebRTC

